import Mathlib

/-!
Verification development for the `job_scrape_engine` pipeline
(scrape → normalize → store → respond).

The definitions below are a shallow embedding of the Python sources:

* `job_scrape_engine/models/job.py` — the `Job` data model and `JobStatus`;
* `job_scrape_engine/agents/normalizer.py` — `NormalizerAgent`;
* `job_scrape_engine/agents/storage.py` — `StorageAgent` over an explicit
  relational-store state (a list of rows standing for the SQLite table);
* `job_scrape_engine/agents/responder.py` — `ResponderAgent`;
* `job_scrape_engine/agents/scraper.py` — the record-construction part of
  `ScraperAgent` (network retrieval and HTML parsing are external
  collaborators and enter the model as parameters);
* `job_scrape_engine/orchestrator.py` — `JobScrapingOrchestrator.run_pipeline`.

Modelling conventions, applied throughout:

* Python `datetime` values are opaque timestamps, modelled as `Nat` and
  threaded explicitly (`now`); `strftime` / `isoformat` renderings are
  `toString` of that timestamp.
* The salary fields are `float` in the source but every value the pipeline
  ever writes into them is a whole number (digit strings with thousands
  separators stripped, optionally multiplied by 1000), so they are
  modelled as `Option Nat`.  Python truthiness of such a field
  (`None` and `0.0` are falsy) is `pyTruthyNat`.
* Python string truthiness (`None` and `""` falsy) on `Optional[str]`
  fields is `pyTruthyStr`.
* Fallible code is `Except String`; the per-record `try/except` blocks of
  the agents become explicit `match` on that result.
* Regular-expression use in the source is limited to a handful of fixed
  patterns; each is compiled here by hand into an executable matcher with
  Python `re` semantics (leftmost match, greedy repetition — for these
  patterns maximal munch needs no backtracking because no repeated class
  overlaps the character that follows it).
-/

/-- The whitespace class matched by Python `\s` on the ASCII range. -/
def isPySpace (c : Char) : Bool :=
  c = ' ' || c = '\t' || c = '\n' || c = '\r' || c = '\x0b' || c = '\x0c'

/-- Lower-casing of a character list; Python `str.lower` restricted to
ASCII, which covers every pattern and criterion string in the source. -/
def lowerChars (l : List Char) : List Char :=
  l.map Char.toLower

/-- Membership of `needle` in `hay` as a contiguous substring: the Python
`needle in hay` test on strings. -/
def containsSub (needle hay : List Char) : Bool :=
  (List.range (hay.length + 1)).any (fun i => needle.isPrefixOf (hay.drop i))

/-- Case-insensitive substring test, Python `a.lower() in b.lower()`. -/
def containsSubLower (needle hay : String) : Bool :=
  containsSub (lowerChars needle.toList) (lowerChars hay.toList)

/-- Collapse every run of consecutive `' '` characters to a single one.
Applied after mapping all whitespace to `' '`, this is Python
`re.sub(r'\s+', ' ', text)`. -/
def collapseSpaces : List Char → List Char
  | [] => []
  | [c] => [c]
  | a :: b :: rest =>
    if a = ' ' && b = ' ' then collapseSpaces (b :: rest)
    else a :: collapseSpaces (b :: rest)

/-- Remove leading and trailing `' '` characters (Python `str.strip()`
on a string whose only whitespace is `' '`). -/
def trimSpaces (l : List Char) : List Char :=
  ((l.dropWhile (· = ' ')).reverse.dropWhile (· = ' ')).reverse

/-- Python truthiness of an optional numeric field: `None` and `0` are
falsy. -/
def pyTruthyNat : Option Nat → Bool
  | some n => n ≠ 0
  | none => false

/-- Python truthiness of an optional string field: `None` and `""` are
falsy. -/
def pyTruthyStr : Option String → Bool
  | some s => s ≠ ""
  | none => false

/-- Render an `Optional[str]` inside an f-string: Python prints `None`
for the absent case. -/
def optStr : Option String → String
  | some s => s
  | none => "None"

/-- Status of a job listing — `JobStatus` in `models/job.py`. -/
inductive JobStatus
  | new
  | normalized
  | stored
  | responded
  | rejected
  | error
deriving DecidableEq, Repr

/-- Normalization metadata written by the normalize stage
(`job.normalized_data` in `_normalize_job`). -/
structure NormalizedData where
  normalized_at : Nat
  skills_extracted : Nat
  has_salary : Bool
deriving DecidableEq, Repr

/-- Job listing data model — `Job` in `models/job.py`.  Field-for-field
with the pydantic model; `raw_data` is an opaque string-keyed bag and
`normalized_data` is `none` for the initially-empty dict. -/
structure Job where
  id : Option String
  external_id : Option String
  title : String
  company : String
  location : Option String
  description : String
  url : Option String
  source_platform : String
  salary_min : Option Nat
  salary_max : Option Nat
  salary_currency : Option String
  job_type : Option String
  remote_type : Option String
  experience_level : Option String
  required_skills : List String
  preferred_skills : List String
  requirements : Option String
  posted_date : Option Nat
  scraped_date : Nat
  deadline : Option Nat
  status : JobStatus
  raw_data : List (String × String)
  normalized_data : Option NormalizedData
deriving DecidableEq, Repr

/-- Text normalization — `NormalizerAgent._normalize_text`: collapse all
whitespace runs to a single space, then trim. -/
def NormalizerAgent.normalize_text (text : String) : String :=
  if text = "" then ""
  else
    ⟨trimSpaces (collapseSpaces (text.toList.map (fun c => if isPySpace c then ' ' else c)))⟩

/-- The fixed skill table of `NormalizerAgent._load_skill_patterns`.
Each source regex is `\b<literal>\b` (the one pattern with `\.?`,
`\bnode\.?js\b`, becomes the two alternatives `nodejs` / `node.js`);
a pattern is the list of its literal alternatives. -/
def NormalizerAgent.skill_patterns : List (String × List (List String)) :=
  [ ("Python", [["python"], ["django"], ["flask"], ["fastapi"]]),
    ("JavaScript", [["javascript"], ["js"], ["nodejs", "node.js"], ["react"], ["vue"], ["angular"]]),
    ("Java", [["java"], ["spring"]]),
    ("SQL", [["sql"], ["mysql"], ["postgresql"], ["postgres"]]),
    ("Docker", [["docker"], ["kubernetes"], ["k8s"]]),
    ("AWS", [["aws"], ["amazon web services"], ["ec2"], ["s3"]]),
    ("Git", [["git"], ["github"], ["gitlab"]]),
    ("CI/CD", [["ci/cd"], ["jenkins"], ["github actions"], ["gitlab ci"]]) ]

/-- Python `\w` on the ASCII range, used for the `\b` word boundary. -/
def isWordChar (c : Char) : Bool :=
  c.isAlphanum || c = '_'

/-- Occurrence of `lit` in `hay` at position `i` with a `\b` boundary on
both sides.  Every literal in the skill table starts and ends with a word
character, so the boundary amounts to: the characters just before and
just after the occurrence (when they exist) are not word characters. -/
def wordBoundedAt (lit hay : List Char) (i : Nat) : Bool :=
  lit.isPrefixOf (hay.drop i) &&
  (i = 0 || !isWordChar (hay.getD (i - 1) ' ')) &&
  !isWordChar (hay.getD (i + lit.length) ' ')

/-- Python `re.search(r'\b<lit>\b', hay)` viewed as a boolean. -/
def hasWordBounded (lit : String) (hay : List Char) : Bool :=
  (List.range (hay.length + 1)).any (wordBoundedAt lit.toList hay)

/-- Successful `re.search` of one skill pattern (any of its literal
alternatives occurs word-bounded). -/
def NormalizerAgent.patternHits (alts : List String) (hay : List Char) : Bool :=
  alts.any (fun a => hasWordBounded a hay)

/-- Skill extraction — `NormalizerAgent._extract_skills`: each skill of
the table whose pattern list has a match against the lower-cased
description is collected, in table order (the source appends the skill on
the first matching pattern and breaks). -/
def NormalizerAgent.extract_skills (description : String) : List String :=
  let dl := lowerChars description.toList
  (NormalizerAgent.skill_patterns.filter (fun p => p.2.any (fun alts => NormalizerAgent.patternHits alts dl))).map (·.1)

/-- The fixed mapping of `NormalizerAgent._load_job_type_mappings`. -/
def NormalizerAgent.job_type_mappings : List (String × List String) :=
  [ ("full-time", ["full-time", "full time", "temps plein", "cdi"]),
    ("part-time", ["part-time", "part time", "temps partiel"]),
    ("contract", ["contract", "contractor", "freelance", "contrat"]),
    ("internship", ["internship", "intern", "stage"]),
    ("temporary", ["temporary", "temp", "temporaire", "cdd"]) ]

/-- Job-type normalization — `NormalizerAgent._normalize_job_type`: the
first canonical type one of whose trigger phrases is a substring of the
lower-cased job type or description wins; default `"full-time"`. -/
def NormalizerAgent.normalize_job_type (job_type description : String) : String :=
  let jt := lowerChars job_type.toList
  let dl := lowerChars description.toList
  match NormalizerAgent.job_type_mappings.find?
      (fun m => m.2.any (fun p => containsSub p.toList jt || containsSub p.toList dl)) with
  | some m => m.1
  | none => "full-time"

/-- Character class `[\d,]` of the salary patterns. -/
def isDigitOrComma (c : Char) : Bool :=
  c.isDigit || c = ','

/-- A successful salary-pattern match: the two captured groups and the
full matched span `description[match.start():match.end()]`. -/
structure SalaryMatch where
  g1 : List Char
  g2 : List Char
  span : List Char
deriving DecidableEq, Repr

/-- Consume one optional character satisfying `p` (a greedy `X?`). -/
def optChar (p : Char → Bool) : List Char → List Char × List Char
  | [] => ([], [])
  | c :: rest => if p c then ([c], rest) else ([], c :: rest)

/-- Match of `\$?([\d,]+)k?\s*-\s*\$?([\d,]+)k?` (with `re.IGNORECASE`,
so `k` also matches `K`) anchored at the start of `t`.  Each repetition
is maximal-munch, which coincides with Python greedy matching here since
no class contains the character required next. -/
def matchP1At (t : List Char) : Option SalaryMatch :=
  let (d1, t) := optChar (· = '$') t
  let g1 := t.takeWhile isDigitOrComma
  if g1.isEmpty then none
  else
    let t := t.drop g1.length
    let (k1, t) := optChar (fun c => c = 'k' || c = 'K') t
    let ws1 := t.takeWhile isPySpace
    let t := t.drop ws1.length
    match t with
    | '-' :: t =>
      let ws2 := t.takeWhile isPySpace
      let t := t.drop ws2.length
      let (d2, t) := optChar (· = '$') t
      let g2 := t.takeWhile isDigitOrComma
      if g2.isEmpty then none
      else
        let t := t.drop g2.length
        let (k2, _) := optChar (fun c => c = 'k' || c = 'K') t
        some ⟨g1, g2, d1 ++ g1 ++ k1 ++ ws1 ++ '-' :: ws2 ++ d2 ++ g2 ++ k2⟩
    | _ => none

/-- Match of `([\d,]+)\s*€\s*-\s*([\d,]+)\s*€` anchored at the start. -/
def matchP2At (t : List Char) : Option SalaryMatch :=
  let g1 := t.takeWhile isDigitOrComma
  if g1.isEmpty then none
  else
    let t := t.drop g1.length
    let ws1 := t.takeWhile isPySpace
    let t := t.drop ws1.length
    match t with
    | '€' :: t =>
      let ws2 := t.takeWhile isPySpace
      let t := t.drop ws2.length
      match t with
      | '-' :: t =>
        let ws3 := t.takeWhile isPySpace
        let t := t.drop ws3.length
        let g2 := t.takeWhile isDigitOrComma
        if g2.isEmpty then none
        else
          let t := t.drop g2.length
          let ws4 := t.takeWhile isPySpace
          let t := t.drop ws4.length
          match t with
          | '€' :: _ =>
            some ⟨g1, g2, g1 ++ ws1 ++ '€' :: ws2 ++ '-' :: ws3 ++ g2 ++ ws4 ++ ['€']⟩
          | _ => none
      | _ => none
    | _ => none

/-- The scan of `re.search`: try the anchored matcher at position 0, 1, …
and return the first (leftmost) success. -/
def searchPat (m : List Char → Option SalaryMatch) : List Char → Option SalaryMatch
  | [] => m []
  | c :: rest =>
    match m (c :: rest) with
    | some r => some r
    | none => searchPat m rest

/-- Parse one captured group: `float(group.replace(',', ''))`.  The group
consists of digits and commas; with the commas removed an empty string
raises `ValueError`, otherwise the value is the denoted natural number. -/
def parseGroup (g : List Char) : Option Nat :=
  let ds := g.filter (fun c => c ≠ ',')
  if ds.isEmpty then none
  else some (ds.foldl (fun n c => 10 * n + (c.toNat - '0'.toNat)) 0)

/-- Salary information returned by `_extract_salary`. -/
structure SalaryInfo where
  min : Nat
  max : Nat
  currency : String
deriving DecidableEq, Repr

/-- One iteration of the pattern loop of `_extract_salary`: search the
pattern; on a match parse both groups, returning `none` (Python
`continue`, on to the next pattern) if parsing raises; scale by 1000 when
the matched span contains the letter `k`; currency `EUR` when the span
contains `€`, else `USD`. -/
def tryPattern (m : List Char → Option SalaryMatch) (desc : List Char) : Option SalaryInfo :=
  match searchPat m desc with
  | none => none
  | some r =>
    match parseGroup r.g1, parseGroup r.g2 with
    | some a, some b =>
      let scaled := if r.span.any (fun c => c = 'k' || c = 'K') then (a * 1000, b * 1000) else (a, b)
      some ⟨scaled.1, scaled.2, if r.span.any (fun c => c = '€') then "EUR" else "USD"⟩
    | _, _ => none

/-- Salary extraction — `NormalizerAgent._extract_salary`: the two range
patterns are tried in order; the first pattern that matches with
parsable groups wins. -/
def NormalizerAgent.extract_salary (description : String) : Option SalaryInfo :=
  match tryPattern matchP1At description.toList with
  | some si => some si
  | none => tryPattern matchP2At description.toList

/-- Location normalization — `NormalizerAgent._normalize_location`:
clean the text, then strip one leading `location:?` / `lieu:?` label
(case-insensitive, alternatives and the optional colon tried greedily in
source order) together with the whitespace that follows it. -/
def NormalizerAgent.normalize_location (location : String) : String :=
  let t := (NormalizerAgent.normalize_text location).toList
  let low := lowerChars t
  let n :=
    if ("location:".toList).isPrefixOf low then 9
    else if ("location".toList).isPrefixOf low then 8
    else if ("lieu:".toList).isPrefixOf low then 5
    else if ("lieu".toList).isPrefixOf low then 4
    else 0
  if n = 0 then ⟨t⟩ else ⟨(t.drop n).dropWhile isPySpace⟩

/-- Remote-type classification — `NormalizerAgent._extract_remote_type`
over the lower-cased `f"{title} {description}"`. -/
def NormalizerAgent.extract_remote_type (description title : String) : String :=
  let combined := lowerChars (title ++ " " ++ description).toList
  if ["remote", "télétravail", "work from home", "wfh"].any
      (fun w => containsSub w.toList combined) then
    if ["hybrid", "hybride", "part-time remote"].any
        (fun w => containsSub w.toList combined) then "hybrid"
    else "remote"
  else "on-site"

/-- Step 1 of `NormalizerAgent._normalize_job`: clean the three text
fields. -/
def NormalizerAgent.text_step (job : Job) : Job :=
  { job with
    title := NormalizerAgent.normalize_text job.title,
    company := NormalizerAgent.normalize_text job.company,
    description := NormalizerAgent.normalize_text job.description }

/-- Step 2 of `_normalize_job`: when the (cleaned) description is truthy,
merge the extracted skills into `required_skills`.  The source computes
`list(set(job.required_skills + skills))`, whose element order is
unspecified (hash-dependent); it is modelled by `List.dedup`, which
agrees with it on membership and duplicate-freeness. -/
def NormalizerAgent.skills_step (job : Job) : Job :=
  if job.description ≠ "" then
    { job with required_skills :=
        (job.required_skills ++ NormalizerAgent.extract_skills job.description).dedup }
  else job

/-- Step 3 of `_normalize_job`: normalize the job type (`job.job_type or ""`
paired with the description). -/
def NormalizerAgent.jobtype_step (job : Job) : Job :=
  { job with
    job_type := some (NormalizerAgent.normalize_job_type (job.job_type.getD "") job.description) }

/-- Step 4 of `_normalize_job`: `if not job.salary_min or not
job.salary_max`, extract a salary from the description and, on a match,
overwrite the three salary fields. -/
def NormalizerAgent.salary_step (job : Job) : Job :=
  if !pyTruthyNat job.salary_min || !pyTruthyNat job.salary_max then
    match NormalizerAgent.extract_salary job.description with
    | some si =>
      { job with salary_min := some si.min, salary_max := some si.max,
                 salary_currency := some si.currency }
    | none => job
  else job

/-- Step 5 of `_normalize_job`: `if job.location`, normalize it. -/
def NormalizerAgent.location_step (job : Job) : Job :=
  if pyTruthyStr job.location then
    { job with location := some (NormalizerAgent.normalize_location (job.location.getD "")) }
  else job

/-- Step 6 of `_normalize_job`: classify the remote type. -/
def NormalizerAgent.remote_step (job : Job) : Job :=
  { job with
    remote_type := some (NormalizerAgent.extract_remote_type job.description job.title) }

/-- Step 7 of `_normalize_job`: stamp `status = normalized` and the
normalization metadata. -/
def NormalizerAgent.stamp_step (now : Nat) (job : Job) : Job :=
  { job with
    status := JobStatus.normalized,
    normalized_data := some
      { normalized_at := now,
        skills_extracted := job.required_skills.length,
        has_salary := pyTruthyNat job.salary_min || pyTruthyNat job.salary_max } }

/-- Normalization of a single job — `NormalizerAgent._normalize_job`,
the seven steps in source order (`now` is the wall-clock timestamp). -/
def NormalizerAgent.normalize_job (now : Nat) (job : Job) : Job :=
  NormalizerAgent.stamp_step now
    (NormalizerAgent.remote_step
      (NormalizerAgent.location_step
        (NormalizerAgent.salary_step
          (NormalizerAgent.jobtype_step
            (NormalizerAgent.skills_step
              (NormalizerAgent.text_step job))))))

/-- Fallible view of `_normalize_job` as called under the stage's
per-record `try`; the embedded normalization never raises, so it always
returns `Except.ok`. -/
def NormalizerAgent.normalize_jobE (now : Nat) (job : Job) : Except String Job :=
  Except.ok (NormalizerAgent.normalize_job now job)

/-- The loop body of `NormalizerAgent.process`, parametric in the
per-record normalizer: a record whose normalization raises is appended
with `status = error`, every other record is appended normalized. -/
def NormalizerAgent.processWith (f : Job → Except String Job) (jobs : List Job) : List Job :=
  jobs.map (fun job =>
    match f job with
    | Except.ok j => j
    | Except.error _ => { job with status := JobStatus.error })

/-- The normalize stage — `NormalizerAgent.process`. -/
def NormalizerAgent.process (now : Nat) (jobs : List Job) : List Job :=
  NormalizerAgent.processWith (NormalizerAgent.normalize_jobE now) jobs

/-- Status of a response — `ResponseStatus` in `models/response.py`. -/
inductive ResponseStatus
  | pending
  | sent
  | failed
  | received
deriving DecidableEq, Repr

/-- Response template — `ResponseTemplate` in `models/response.py`
(the two `*_date` bookkeeping fields play no role in any operation and
are omitted). -/
structure ResponseTemplate where
  id : Option String
  name : String
  subject : String
  body : String
  vars : List (String × String)
deriving DecidableEq, Repr

/-- Record of a response — `JobResponse` in `models/response.py`; its
`metadata` dict always holds exactly the keys `template_name` and
`generated_at`, modelled as two fields. -/
structure JobResponse where
  id : Option String
  job_id : String
  template_id : Option String
  subject : String
  body : String
  status : ResponseStatus
  sent_date : Option Nat
  metadata_template_name : String
  metadata_generated_at : Nat
deriving DecidableEq, Repr

/-- The recognized keys of `config["response_criteria"]`; an absent key
is `none`. -/
structure ResponseCriteria where
  required_skills : Option (List String)
  job_types : Option (List String)
  remote_types : Option (List String)
  min_salary : Option Nat
  locations : Option (List String)
deriving DecidableEq, Repr

/-- Configuration of the responder as read in `ResponderAgent.__init__`
(`self.templates`, `self.auto_respond`, `self.response_criteria`, and the
`custom_variables` looked up in `_generate_response`). -/
structure ResponderConfig where
  templates : List ResponseTemplate
  auto_respond : Bool
  response_criteria : ResponseCriteria
  custom_variables : List (String × String)
deriving DecidableEq, Repr

/-- The eligibility filter — `ResponderAgent._meets_criteria`.  Each of
the five checks can fail (early `return False`); the record is eligible
when none does.  The salary check runs only when `min_salary` is
configured and `job.salary_min` is truthy (not `None`, not `0`); the
location check runs only when `locations` is configured and
`job.location` is truthy (not `None`, not empty). -/
def ResponderAgent.meets_criteria (c : ResponseCriteria) (job : Job) : Bool :=
  (match c.required_skills with
   | some required => required.any (fun s => job.required_skills.contains s)
   | none => true) &&
  (match c.job_types with
   | some ts =>
     match job.job_type with
     | some t => ts.contains t
     | none => false
   | none => true) &&
  (match c.remote_types with
   | some rs =>
     match job.remote_type with
     | some r => rs.contains r
     | none => false
   | none => true) &&
  (match c.min_salary, job.salary_min with
   | some m, some s => if s ≠ 0 then decide (m ≤ s) else true
   | _, _ => true) &&
  (match c.locations, job.location with
   | some locs, some l =>
     if l ≠ "" then locs.any (fun loc => containsSubLower loc l) else true
   | _, _ => true)

/-- Template selection — `ResponderAgent._select_template`: the first
configured template, `none` when there is none. -/
def ResponderAgent.select_template (cfg : ResponderConfig) : Option ResponseTemplate :=
  cfg.templates.head?

/-- Opening brace character, written via its code point. -/
def braceL : String := "\x7b"

/-- Closing brace character, written via its code point. -/
def braceR : String := "\x7d"

/-- Replace every (non-overlapping, left-to-right) occurrence of `needle`
in the text by `repl`, the effect of `re.sub(re.escape(needle), repl, text)`;
replacement text is not rescanned. -/
def replaceAll (needle repl : List Char) : List Char → List Char
  | [] => []
  | c :: rest =>
    if needle.isPrefixOf (c :: rest) ∧ needle ≠ [] then
      repl ++ replaceAll needle repl (rest.drop (needle.length - 1))
    else c :: replaceAll needle repl rest
termination_by l => l.length
decreasing_by
  · simp only [List.length_drop, List.length_cons]
    omega
  · simp only [List.length_cons]
    omega

/-- Python `dict.update` on an association list: existing keys are
overwritten in place, new keys appended in order. -/
def dictUpdate (base upd : List (String × String)) : List (String × String) :=
  upd.foldl
    (fun acc kv =>
      if acc.any (fun p => p.1 = kv.1) then
        acc.map (fun p => if p.1 = kv.1 then (p.1, kv.2) else p)
      else acc ++ [kv])
    base

/-- Variable substitution — `ResponderAgent._substitute_variables`:
for each variable in dict order, replace every `{name}` occurrence by its
value.  Placeholders matching no variable are left verbatim. -/
def ResponderAgent.substitute_variables (text : String) (vars : List (String × String)) : String :=
  vars.foldl
    (fun res kv => ⟨replaceAll (braceL ++ kv.1 ++ braceR).toList kv.2.toList res.toList⟩)
    text

/-- Response generation — `ResponderAgent._generate_response`.  The fixed
variable set (`job_title`, `company`, `location` and `job_type` with
Python-falsy fallback `"N/A"`, `date` rendered from `now`) is updated
with the configured custom variables, then substituted into the
template's subject and body. -/
def ResponderAgent.generate_response (cfg : ResponderConfig) (now : Nat)
    (job : Job) (template : ResponseTemplate) : JobResponse :=
  let vars := dictUpdate
    [ ("job_title", job.title),
      ("company", job.company),
      ("location", if pyTruthyStr job.location then job.location.getD "" else "N/A"),
      ("job_type", if pyTruthyStr job.job_type then job.job_type.getD "" else "N/A"),
      ("date", toString now) ]
    cfg.custom_variables
  { id := none,
    job_id := if pyTruthyStr job.id then job.id.getD "" else "",
    template_id := template.id,
    subject := ResponderAgent.substitute_variables template.subject vars,
    body := ResponderAgent.substitute_variables template.body vars,
    status := ResponseStatus.pending,
    sent_date := none,
    metadata_template_name := template.name,
    metadata_generated_at := now }

/-- Per-record result dictionary of the respond stage.  Optional fields
model keys that a given path does not put into the dict. -/
structure RespondResult where
  job : Job
  response : Option JobResponse
  should_respond : Option Bool
  reason : Option String
  auto_sent : Option Bool
  error : Option String
deriving DecidableEq, Repr

/-- Processing of a single job — `ResponderAgent._process_job`: the
ineligible and no-template paths return the input job untouched with
`should_respond = false` and a reason; the eligible path generates the
response, sets the job's status to `responded`, and when `auto_respond`
is configured marks the response sent at `now` and flags `auto_sent`. -/
def ResponderAgent.process_job (cfg : ResponderConfig) (now : Nat) (job : Job) : RespondResult :=
  if !ResponderAgent.meets_criteria cfg.response_criteria job then
    { job := job, response := none, should_respond := some false,
      reason := some "Does not meet criteria", auto_sent := none, error := none }
  else
    match ResponderAgent.select_template cfg with
    | none =>
      { job := job, response := none, should_respond := some false,
        reason := some "No template available", auto_sent := none, error := none }
    | some template =>
      let response := ResponderAgent.generate_response cfg now job template
      let job := { job with status := JobStatus.responded }
      if cfg.auto_respond then
        { job := job,
          response := some { response with status := ResponseStatus.sent, sent_date := some now },
          should_respond := some true, reason := none, auto_sent := some true, error := none }
      else
        { job := job, response := some response, should_respond := some true,
          reason := none, auto_sent := some false, error := none }

/-- The loop body of `ResponderAgent.process`, parametric in the
per-record worker: a record whose processing raises contributes the
dictionary `{job, response: None, error}` and the loop continues. -/
def ResponderAgent.processWith (f : Job → Except String RespondResult) (jobs : List Job) : List RespondResult :=
  jobs.map (fun job =>
    match f job with
    | Except.ok r => r
    | Except.error e =>
      { job := job, response := none, should_respond := none,
        reason := none, auto_sent := none, error := some e })

/-- The respond stage — `ResponderAgent.process` (the embedded
`_process_job` is total, so the per-record handler's branch is taken only
under the parametric view `ResponderAgent.processWith`). -/
def ResponderAgent.process (cfg : ResponderConfig) (now : Nat) (jobs : List Job) : List RespondResult :=
  ResponderAgent.processWith (fun job => Except.ok (ResponderAgent.process_job cfg now job)) jobs

/-- A row of the SQLite `jobs` table created in
`StorageAgent._init_database`.  `id` is the primary key (never NULL:
`_store_job` always populates `job.id` before writing), `external_id`
carries a UNIQUE constraint with SQL semantics (NULLs never compare
equal, so NULL keys neither match on lookup nor conflict). -/
structure JobRow where
  id : String
  external_id : Option String
  title : String
  company : String
  location : Option String
  description : String
  url : Option String
  source_platform : String
  salary_min : Option Nat
  salary_max : Option Nat
  salary_currency : Option String
  job_type : Option String
  remote_type : Option String
  experience_level : Option String
  required_skills : List String
  preferred_skills : List String
  requirements : Option String
  posted_date : Option Nat
  scraped_date : Nat
  deadline : Option Nat
  status : JobStatus
  raw_data : List (String × String)
  normalized_data : Option NormalizedData
  created_at : Nat
  updated_at : Nat
deriving DecidableEq, Repr

/-- The relational store: the `jobs` table in insertion order. -/
abbrev StorageDB := List JobRow

/-- Deterministic id generation — `StorageAgent._generate_job_id`
computes `md5(f"{job.external_id}_{job.scraped_date.isoformat()}")`.
The md5 hex digest is modelled as the (deterministic) hashed string
itself; no claim depends on digest collisions. -/
def StorageAgent.generate_job_id (job : Job) : String :=
  optStr job.external_id ++ "_" ++ toString job.scraped_date

/-- The `WHERE external_id = ?` predicate shared by the SELECT and the
UPDATE of `_store_job` / `_update_job`: never satisfied when the job's
`external_id` is NULL. -/
def StorageAgent.matches_external (job : Job) (r : JobRow) : Bool :=
  match job.external_id with
  | some e => r.external_id = some e
  | none => false

/-- The UPDATE of `StorageAgent._update_job`: every mutable column is
overwritten from the job and `updated_at` is set; `id`, `external_id`
and `created_at` are untouched. -/
def StorageAgent.update_row (now : Nat) (r : JobRow) (job : Job) : JobRow :=
  { r with
    title := job.title, company := job.company, location := job.location,
    description := job.description, url := job.url,
    source_platform := job.source_platform,
    salary_min := job.salary_min, salary_max := job.salary_max,
    salary_currency := job.salary_currency, job_type := job.job_type,
    remote_type := job.remote_type, experience_level := job.experience_level,
    required_skills := job.required_skills, preferred_skills := job.preferred_skills,
    requirements := job.requirements, posted_date := job.posted_date,
    scraped_date := job.scraped_date, deadline := job.deadline,
    status := job.status, raw_data := job.raw_data,
    normalized_data := job.normalized_data, updated_at := now }

/-- The INSERT of `StorageAgent._insert_job` (status written is the
job's status at write time; `created_at` / `updated_at` take the SQL
`CURRENT_TIMESTAMP` default). -/
def StorageAgent.insert_row (now : Nat) (job : Job) : JobRow :=
  { id := job.id.getD "", external_id := job.external_id,
    title := job.title, company := job.company, location := job.location,
    description := job.description, url := job.url,
    source_platform := job.source_platform,
    salary_min := job.salary_min, salary_max := job.salary_max,
    salary_currency := job.salary_currency, job_type := job.job_type,
    remote_type := job.remote_type, experience_level := job.experience_level,
    required_skills := job.required_skills, preferred_skills := job.preferred_skills,
    requirements := job.requirements, posted_date := job.posted_date,
    scraped_date := job.scraped_date, deadline := job.deadline,
    status := job.status, raw_data := job.raw_data,
    normalized_data := job.normalized_data, created_at := now, updated_at := now }

/-- The id population step of `StorageAgent._store_job`: generate an id
when the job's `id` is Python-falsy (`None` or `""`). -/
def StorageAgent.fill_id (job : Job) : Job :=
  if pyTruthyStr job.id then job
  else { job with id := some (StorageAgent.generate_job_id job) }

/-- Storing a single job — `StorageAgent._store_job`: populate `id`
when Python-falsy (`StorageAgent.fill_id`), look up by `external_id`;
update the matching row, or insert a new one.  An INSERT whose primary
key collides with an existing row raises (sqlite `IntegrityError`),
leaving the table as it was; the statement-level failure does not abort
the enclosing transaction.  On success the returned job is the input
with its (possibly generated) id and `status = stored`. -/
def StorageAgent.store_job (now : Nat) (db : StorageDB) (job : Job) :
    Except String (StorageDB × Job) :=
  let job := StorageAgent.fill_id job
  match db.find? (StorageAgent.matches_external job) with
  | some _ =>
    Except.ok
      (db.map (fun r => if StorageAgent.matches_external job r
                        then StorageAgent.update_row now r job else r),
       { job with status := JobStatus.stored })
  | none =>
    if db.any (fun r => job.id = some r.id) then
      Except.error "UNIQUE constraint failed: jobs.id"
    else
      Except.ok (db ++ [StorageAgent.insert_row now job],
                 { job with status := JobStatus.stored })

/-- The per-record loop of `StorageAgent.process`: a record whose write
raises is caught by the inner handler — it is appended with
`status = error` and the loop continues over the unchanged table; a
record written successfully threads the updated table. -/
def StorageAgent.storeLoop (now : Nat) : StorageDB → List Job → List Job × StorageDB
  | db, [] => ([], db)
  | db, job :: rest =>
    match StorageAgent.store_job now db job with
    | Except.ok p =>
      let r := StorageAgent.storeLoop now p.1 rest
      (p.2 :: r.1, r.2)
    | Except.error _ =>
      let r := StorageAgent.storeLoop now db rest
      ({ job with status := JobStatus.error } :: r.1, r.2)

/-- The persist stage — `StorageAgent.process`, with the final
`conn.commit()` modelled as returning the table the loop produced. -/
def StorageAgent.process (now : Nat) (db : StorageDB) (jobs : List Job) : List Job × StorageDB :=
  StorageAgent.storeLoop now db jobs

/-- The persist stage with the commit made explicit, for the outer
`try/except` of `StorageAgent.process`: only an exception escaping the
per-record handling — in the embedded code, a failing `conn.commit()` —
reaches the outer handler, which rolls the transaction back (the caller
then still sees the table as it was before the call) and re-raises. -/
def StorageAgent.processT (commit : StorageDB → Except String StorageDB)
    (now : Nat) (db : StorageDB) (jobs : List Job) :
    Except String (List Job × StorageDB) :=
  match commit (StorageAgent.storeLoop now db jobs).2 with
  | Except.ok dbc => Except.ok ((StorageAgent.storeLoop now db jobs).1, dbc)
  | Except.error e => Except.error e

/-- The read accessor `StorageAgent.get_jobs`: optional status filter,
rows ordered by `scraped_date` descending, `LIMIT ?/OFFSET ?`
pagination.  The descending sort is stable (sqlite returns a valid
order; the model fixes the stable one). -/
def StorageAgent.get_jobs (db : StorageDB) (status : Option JobStatus)
    (limit : Nat) (offset : Nat) : List JobRow :=
  let rows : StorageDB := match status with
    | some st => db.filter (fun (r : JobRow) => r.status = st)
    | none => db
  (((rows.mergeSort (fun (a b : JobRow) => decide (b.scraped_date ≤ a.scraped_date))).drop offset).take limit)

/-- Job construction in the fetch stage —
`ScraperAgent._extract_job_from_element`.  The HTML element is given by
the three extracted texts (`none` when the element is missing) and the
raw element string; the platform name comes from
`_extract_platform_name` (URL plumbing, passed in).  A missing title
element discards the candidate; otherwise the job is created with
`status = new` and the deterministic `external_id` of
`f"{source_url}_{idx}"`. -/
def ScraperAgent.extract_job (source_url : String) (idx : Nat) (now : Nat)
    (title_elem company_elem description_elem : Option String)
    (platform : String) (rawHtml : String) : Option Job :=
  match title_elem with
  | none => none
  | some t =>
    some
      { id := none,
        external_id := some (source_url ++ "_" ++ toString idx),
        title := t,
        company := company_elem.getD "Unknown",
        location := none,
        description := description_elem.getD "",
        url := some source_url,
        source_platform := platform,
        salary_min := none, salary_max := none, salary_currency := none,
        job_type := none, remote_type := none, experience_level := none,
        required_skills := [], preferred_skills := [], requirements := none,
        posted_date := none, scraped_date := now, deadline := none,
        status := JobStatus.new,
        raw_data := [("html", rawHtml), ("source_url", source_url)],
        normalized_data := none }

/-- The fetch stage — `ScraperAgent.process`, parametric in the
per-location retrieval+parse (`_scrape_url`, an external collaborator
that never raises: every failure contributes an empty list).  The
`asyncio.gather` keeps task order, and per-location results are
concatenated in that order; an empty result extends the output by
nothing. -/
def ScraperAgent.process (fetch : String → List Job) (platform_urls : List String) : List Job :=
  (platform_urls.map fetch).foldl (fun acc r => acc ++ r) []

/-- The pipeline summary dictionary built by `run_pipeline`; `responses`
and `execution_time_seconds` model keys absent until assigned. -/
structure PipelineResult where
  urls_processed : Nat
  jobs_scraped : Nat
  jobs_normalized : Nat
  jobs_stored : Nat
  responses_generated : Nat
  responses : Option (List RespondResult)
  execution_time_seconds : Option Nat
  errors : List String
deriving DecidableEq, Repr

/-- The orchestrator pipeline — `JobScrapingOrchestrator.run_pipeline`:
scrape, and if nothing was scraped return immediately with the execution
time set; otherwise normalize, store and respond in sequence, counting
`responses_generated` as the results whose `should_respond` entry is
truthy.  `fetch` abstracts the network side of the scrape stage, `now`
the stage timestamps and `elapsed` the measured execution time; the
store table is threaded explicitly.  Every embedded stage is total, so
the `except` branch (append the error string and re-raise) is
unreachable in the model. -/
def JobScrapingOrchestrator.run_pipeline (fetch : String → List Job)
    (cfg : ResponderConfig) (now elapsed : Nat) (db : StorageDB)
    (urls : List String) : PipelineResult × StorageDB :=
  let base : PipelineResult :=
    { urls_processed := urls.length, jobs_scraped := 0, jobs_normalized := 0,
      jobs_stored := 0, responses_generated := 0, responses := none,
      execution_time_seconds := none, errors := [] }
  let jobs := ScraperAgent.process fetch urls
  let base := { base with jobs_scraped := jobs.length }
  if jobs.isEmpty then
    ({ base with execution_time_seconds := some elapsed }, db)
  else
    let normalized := NormalizerAgent.process now jobs
    let storeOut := StorageAgent.process now db normalized
    let responses := ResponderAgent.process cfg now storeOut.1
    ({ base with
        jobs_normalized := normalized.length,
        jobs_stored := storeOut.1.length,
        responses_generated := (responses.filter (fun r => r.should_respond = some true)).length,
        responses := some responses,
        execution_time_seconds := some elapsed },
     storeOut.2)

/-- A minimal well-formed job record used as the base of concrete test
inputs (counterexamples and witnesses below override single fields). -/
def baseJob : Job :=
  { id := none, external_id := some "test_1", title := "T", company := "C",
    location := none, description := "", url := none, source_platform := "test",
    salary_min := none, salary_max := none, salary_currency := none,
    job_type := none, remote_type := none, experience_level := none,
    required_skills := [], preferred_skills := [], requirements := none,
    posted_date := none, scraped_date := 0, deadline := none,
    status := JobStatus.new, raw_data := [], normalized_data := none }

/-- An empty responder configuration for concrete pipeline runs. -/
def emptyResponderConfig : ResponderConfig :=
  { templates := [], auto_respond := false,
    response_criteria :=
      { required_skills := none, job_types := none, remote_types := none,
        min_salary := none, locations := none },
    custom_variables := [] }

/-- The C3 counterexample input: `salary_min` already set, `salary_max`
absent, salary range present in the description. -/
def c3Job : Job :=
  { baseJob with
    salary_min := some 50000,
    description := "Salary range: $80,000 - $120,000" }

/-- The C3 witness input: both salary fields set. -/
def c3WitnessJob : Job :=
  { baseJob with
    salary_min := some 50000,
    salary_max := some 90000,
    description := "Salary range: $80,000 - $120,000" }

/-- The C7 counterexample input: duplicated skills and an empty
description. -/
def c7Job : Job :=
  { baseJob with required_skills := ["Python", "Python"] }

/-- Criteria configuring only a minimum salary. -/
def c5MinSalaryCrit : ResponseCriteria :=
  { required_skills := none, job_types := none, remote_types := none,
    min_salary := some 1, locations := none }

/-- Criteria configuring only required skills. -/
def c5SkillsCrit (sk : List String) : ResponseCriteria :=
  { required_skills := some sk, job_types := none, remote_types := none,
    min_salary := none, locations := none }

/-- The job of the C5 example: `required_skills = ["Python"]`. -/
def c5PythonJob : Job :=
  { baseJob with required_skills := ["Python"] }

/-- First job of the C1 counterexample batch: preset id `"x"`. -/
def c1JobA : Job :=
  { baseJob with
    id := some "x",
    external_id := some "a",
    description := "d1",
    status := JobStatus.normalized }

/-- Second job of the C1 counterexample batch: the same preset id `"x"`
but a different `external_id`, so its INSERT violates the primary key
and raises. -/
def c1JobB : Job :=
  { baseJob with
    id := some "x",
    external_id := some "b",
    description := "d2",
    status := JobStatus.normalized }

/-- First write of the C4 witness. -/
def c4Job1 : Job :=
  { baseJob with external_id := some "e1", description := "first" }

/-- Second write of the C4 witness: same external id, new description. -/
def c4Job2 : Job :=
  { baseJob with external_id := some "e1", description := "second" }

/-- A responder configuration whose filter the witness job fails. -/
def c10JavaCfg : ResponderConfig :=
  { templates := [], auto_respond := false,
    response_criteria := c5SkillsCrit ["Java"], custom_variables := [] }

/-- The record the persist stage returns for `c4Job1` on an empty
store. -/
def c10StoredJob : Job :=
  { StorageAgent.fill_id c4Job1 with status := JobStatus.stored }

/-- A record produced by the scrape stage's job construction. -/
def c10ScrapedJob : Job :=
  (ScraperAgent.extract_job "u" 1 2 (some "T") none none "p" "h").getD baseJob

/-- Projections of `StorageAgent.fill_id`: only `id` can change. -/
theorem StorageAgent.fill_id_frame (job : Job) :
    (StorageAgent.fill_id job).external_id = job.external_id ∧
    (StorageAgent.fill_id job).description = job.description ∧
    (StorageAgent.fill_id job).status = job.status := by
  unfold StorageAgent.fill_id
  split <;> exact ⟨rfl, rfl, rfl⟩

/-- The job returned by a successful `_store_job` has `status = stored`. -/
theorem StorageAgent.store_job_ok_status (now : Nat) (db : StorageDB) (job : Job)
    (p : StorageDB × Job) (h : StorageAgent.store_job now db job = Except.ok p) :
    p.2.status = JobStatus.stored := by
  simp only [StorageAgent.store_job] at h
  split at h
  · injection h with h2
    subst h2
    rfl
  · split at h
    · cases h
    · injection h with h2
      subst h2
      rfl

/-- The per-record loop of the persist stage preserves the batch length. -/
theorem StorageAgent.storeLoop_length (now : Nat) :
    ∀ (jobs : List Job) (db : StorageDB),
      (StorageAgent.storeLoop now db jobs).1.length = jobs.length := by
  intro jobs
  induction jobs with
  | nil => intro db; rfl
  | cons job rest ih =>
    intro db
    unfold StorageAgent.storeLoop
    cases h : StorageAgent.store_job now db job with
    | ok p => simpa using ih p.1
    | error e => simpa using ih db

/-- Every record returned by the per-record loop of the persist stage is
either stored or error-marked. -/
theorem StorageAgent.storeLoop_status (now : Nat) :
    ∀ (jobs : List Job) (db : StorageDB) (j : Job),
      j ∈ (StorageAgent.storeLoop now db jobs).1 →
      j.status = JobStatus.stored ∨ j.status = JobStatus.error := by
  intro jobs
  induction jobs with
  | nil => intro db j h; simp [StorageAgent.storeLoop] at h
  | cons job rest ih =>
    intro db j hj
    unfold StorageAgent.storeLoop at hj
    cases h : StorageAgent.store_job now db job with
    | ok p =>
      rw [h] at hj
      simp only [List.mem_cons] at hj
      rcases hj with hj | hj
      · left
        subst hj
        exact StorageAgent.store_job_ok_status now db job p h
      · exact ih p.1 j hj
    | error e =>
      rw [h] at hj
      simp only [List.mem_cons] at hj
      rcases hj with hj | hj
      · right; subst hj; rfl
      · exact ih db j hj

/-- C6: salary extraction matches the ordered range patterns and parses
both numbers with thousands separators stripped —
`"Salary range: $80,000 - $120,000"` yields min 80000, max 120000,
currency USD (no `k`, no `€` in the matched span); a description with
`"50k-70k"` has `k` in the matched span, so both values are multiplied
by 1000; a `€`-suffixed range yields currency EUR (second pattern; the
first does not match); the `k` test is case-insensitive. -/
theorem c6_salary_extraction :
    NormalizerAgent.extract_salary "Salary range: $80,000 - $120,000" =
      some { min := 80000, max := 120000, currency := "USD" } ∧
    NormalizerAgent.extract_salary "Competitive pay 50k-70k plus benefits" =
      some { min := 50000, max := 70000, currency := "USD" } ∧
    NormalizerAgent.extract_salary "Salaire: 40,000 € - 60,000 €" =
      some { min := 40000, max := 60000, currency := "EUR" } ∧
    NormalizerAgent.extract_salary "Earn 90K - 110K yearly" =
      some { min := 90000, max := 110000, currency := "USD" } :=
  ⟨rfl, rfl, rfl, rfl⟩

/-- C2: the normalize stage is one-to-one with its input, whatever the
per-record normalizer does — the output list has the input's length, and
the record at position `i` is the normalization of input `i` when it
succeeds, or input `i` itself with `status = error` when it raises
(never dropped, order preserved); in particular `NormalizerAgent.process`
preserves length. -/
theorem c2_normalize_one_to_one :
    (∀ (f : Job → Except String Job) (jobs : List Job),
      (NormalizerAgent.processWith f jobs).length = jobs.length ∧
      ∀ (i : Nat) (hi : i < jobs.length),
        (NormalizerAgent.processWith f jobs)[i]? =
          some (match f (jobs.get ⟨i, hi⟩) with
                | Except.ok j => j
                | Except.error _ => { jobs.get ⟨i, hi⟩ with status := JobStatus.error })) ∧
    (∀ (now : Nat) (jobs : List Job),
      (NormalizerAgent.process now jobs).length = jobs.length) := by
  constructor
  · intro f jobs
    constructor
    · simp [NormalizerAgent.processWith]
    · intro i hi
      simp [NormalizerAgent.processWith, List.getElem?_map,
        List.getElem?_eq_getElem hi, List.get_eq_getElem]
  · intro now jobs
    simp [NormalizerAgent.process, NormalizerAgent.processWith]

/-- Witness for C2 at a concrete failing normalizer and batch: the
second record is kept in position with `status = error`. -/
theorem c2_normalize_one_to_one_witness :
    (NormalizerAgent.processWith
      (fun j => if j.title = "B" then Except.error "boom" else Except.ok j)
      [{ baseJob with title := "A" }, { baseJob with title := "B" }])[1]? =
      some { baseJob with title := "B", status := JobStatus.error } := by
  have h := (c2_normalize_one_to_one.1
    (fun j => if j.title = "B" then Except.error "boom" else Except.ok j)
    [{ baseJob with title := "A" }, { baseJob with title := "B" }]).2 1 (by decide)
  simpa using h

/-- C8: the respond stage is one-to-one with its input, whatever the
per-record worker does — same length, and the result at position `i`
wraps input `i`: the worker's result object on success, or the
error-capturing object `{job, response: None, error}` when it raises
(the exception is captured, not re-raised); `ResponderAgent.process`
preserves length. -/
theorem c8_respond_one_to_one :
    (∀ (f : Job → Except String RespondResult) (jobs : List Job),
      (ResponderAgent.processWith f jobs).length = jobs.length ∧
      ∀ (i : Nat) (hi : i < jobs.length),
        (ResponderAgent.processWith f jobs)[i]? =
          some (match f (jobs.get ⟨i, hi⟩) with
                | Except.ok r => r
                | Except.error e =>
                  { job := jobs.get ⟨i, hi⟩, response := none, should_respond := none,
                    reason := none, auto_sent := none, error := some e })) ∧
    (∀ (cfg : ResponderConfig) (now : Nat) (jobs : List Job),
      (ResponderAgent.process cfg now jobs).length = jobs.length) := by
  constructor
  · intro f jobs
    constructor
    · simp [ResponderAgent.processWith]
    · intro i hi
      simp [ResponderAgent.processWith, List.getElem?_map,
        List.getElem?_eq_getElem hi, List.get_eq_getElem]
  · intro cfg now jobs
    simp [ResponderAgent.process, ResponderAgent.processWith]

/-- Witness for C8 at a concrete raising worker: the record's exception
is captured into its result object, in position. -/
theorem c8_respond_one_to_one_witness :
    (ResponderAgent.processWith (fun _ => Except.error "boom") [baseJob])[0]? =
      some { job := baseJob, response := none, should_respond := none,
             reason := none, auto_sent := none, error := some "boom" } := by
  have h := (c8_respond_one_to_one.1 (fun _ => Except.error "boom") [baseJob]).2 0 (by decide)
  simpa using h

/-- A job-type, remote-type or metadata step never touches the salary
fields. -/
theorem NormalizerAgent.pre_salary_frame (job : Job) :
    (NormalizerAgent.jobtype_step (NormalizerAgent.skills_step (NormalizerAgent.text_step job))).salary_min = job.salary_min ∧
    (NormalizerAgent.jobtype_step (NormalizerAgent.skills_step (NormalizerAgent.text_step job))).salary_max = job.salary_max ∧
    (NormalizerAgent.jobtype_step (NormalizerAgent.skills_step (NormalizerAgent.text_step job))).salary_currency = job.salary_currency := by
  unfold NormalizerAgent.jobtype_step NormalizerAgent.skills_step NormalizerAgent.text_step
  split <;> exact ⟨rfl, rfl, rfl⟩

/-- When both salary fields are truthy the salary step is the identity
(the extraction guard `if not job.salary_min or not job.salary_max`
fails). -/
theorem NormalizerAgent.salary_step_truthy (job : Job)
    (hmin : pyTruthyNat job.salary_min = true)
    (hmax : pyTruthyNat job.salary_max = true) :
    NormalizerAgent.salary_step job = job := by
  unfold NormalizerAgent.salary_step
  simp [hmin, hmax]

/-- The location, remote and stamp steps never touch the salary fields. -/
theorem NormalizerAgent.post_salary_frame (now : Nat) (job : Job) :
    (NormalizerAgent.stamp_step now (NormalizerAgent.remote_step (NormalizerAgent.location_step job))).salary_min = job.salary_min ∧
    (NormalizerAgent.stamp_step now (NormalizerAgent.remote_step (NormalizerAgent.location_step job))).salary_max = job.salary_max ∧
    (NormalizerAgent.stamp_step now (NormalizerAgent.remote_step (NormalizerAgent.location_step job))).salary_currency = job.salary_currency := by
  unfold NormalizerAgent.stamp_step NormalizerAgent.remote_step NormalizerAgent.location_step
  split <;> exact ⟨rfl, rfl, rfl⟩

/-- C3 counterexample: a job with `salary_min` already set (and
`salary_max` absent) does NOT keep its salary fields — the guard
`if not job.salary_min or not job.salary_max` runs the extraction as
soon as at least one of the two is falsy, and the match overwrites
`salary_min` from 50000 to 80000. -/
theorem c3_counterexample :
    c3Job.salary_min = some 50000 ∧ c3Job.salary_max = none ∧
    (NormalizerAgent.normalize_job 0 c3Job).salary_min = some 80000 ∧
    (NormalizerAgent.normalize_job 0 c3Job).salary_max = some 120000 :=
  ⟨rfl, rfl, rfl, rfl⟩

/-- C3 amended: salary extraction is skipped only when BOTH `salary_min`
and `salary_max` are already truthy (present and non-zero); for every
such Job, normalization leaves `salary_min`, `salary_max` and
`salary_currency` unchanged.  (The claim's "at least one set" guard is
what the counterexample refutes.) -/
theorem c3_amended_salary_frame (now : Nat) (job : Job)
    (hmin : pyTruthyNat job.salary_min = true)
    (hmax : pyTruthyNat job.salary_max = true) :
    (NormalizerAgent.normalize_job now job).salary_min = job.salary_min ∧
    (NormalizerAgent.normalize_job now job).salary_max = job.salary_max ∧
    (NormalizerAgent.normalize_job now job).salary_currency = job.salary_currency := by
  obtain ⟨e1, e2, e3⟩ := NormalizerAgent.pre_salary_frame job
  have hs := NormalizerAgent.salary_step_truthy
    (NormalizerAgent.jobtype_step (NormalizerAgent.skills_step (NormalizerAgent.text_step job)))
    (by rw [e1]; exact hmin) (by rw [e2]; exact hmax)
  unfold NormalizerAgent.normalize_job
  rw [hs]
  obtain ⟨f1, f2, f3⟩ := NormalizerAgent.post_salary_frame now
    (NormalizerAgent.jobtype_step (NormalizerAgent.skills_step (NormalizerAgent.text_step job)))
  exact ⟨f1.trans e1, f2.trans e2, f3.trans e3⟩

/-- Witness for the amended C3: a job with both salary fields set keeps
them through normalization. -/
theorem c3_amended_salary_frame_witness :
    (NormalizerAgent.normalize_job 0 c3WitnessJob).salary_min = some 50000 ∧
    (NormalizerAgent.normalize_job 0 c3WitnessJob).salary_max = some 90000 := by
  have h := c3_amended_salary_frame 0 c3WitnessJob (by decide) (by decide)
  exact ⟨h.1, h.2.1⟩

/-- Only the skills step touches `required_skills`: the normalized job's
skill list is exactly what `skills_step` produced on the text-cleaned
job. -/
theorem NormalizerAgent.normalize_job_skills (now : Nat) (job : Job) :
    (NormalizerAgent.normalize_job now job).required_skills =
      (NormalizerAgent.skills_step (NormalizerAgent.text_step job)).required_skills := by
  unfold NormalizerAgent.normalize_job NormalizerAgent.stamp_step NormalizerAgent.remote_step
    NormalizerAgent.location_step NormalizerAgent.salary_step NormalizerAgent.jobtype_step
  repeat' split
  all_goals rfl

/-- C7 counterexample: for a job whose description is empty the skill
merge (`list(set(...))`) is never executed — `if job.description:` fails —
so pre-existing duplicates in `required_skills` survive normalization,
refuting "for every Job, after normalization `required_skills` contains
no duplicates". -/
theorem c7_counterexample :
    ¬ ((NormalizerAgent.normalize_job 0 c7Job).required_skills).Nodup := by
  decide

/-- C7 amended: the skill merge deduplicates whenever it runs — if the
cleaned description is non-empty, the normalized job's `required_skills`
has no duplicates (so a second normalization also yields no duplicates);
if the cleaned description is empty the skill list is returned exactly
unchanged (which is how pre-existing duplicates can survive); and in
all cases every previously-present skill is preserved (set union). -/
theorem c7_amended_skills (now : Nat) (job : Job) :
    (NormalizerAgent.normalize_text job.description ≠ "" →
      ((NormalizerAgent.normalize_job now job).required_skills).Nodup) ∧
    (NormalizerAgent.normalize_text job.description = "" →
      (NormalizerAgent.normalize_job now job).required_skills = job.required_skills) ∧
    (∀ s ∈ job.required_skills, s ∈ (NormalizerAgent.normalize_job now job).required_skills) := by
  rw [NormalizerAgent.normalize_job_skills]
  unfold NormalizerAgent.skills_step NormalizerAgent.text_step
  refine ⟨?_, ?_, ?_⟩
  · intro h
    simp only [h, if_pos, ne_eq, not_false_iff]
    exact List.nodup_dedup _
  · intro h
    rw [if_neg (by simpa using h)]
  · intro s hs
    by_cases h : NormalizerAgent.normalize_text job.description = ""
    · rw [if_neg (by simpa using h)]
      exact hs
    · rw [if_pos (by simpa using h)]
      simp only [List.mem_dedup, List.mem_append]
      exact Or.inl hs

/-- Witness for the amended C7: a duplicated input skill list is
deduplicated when the description is non-empty, and an existing skill
survives. -/
theorem c7_amended_skills_witness :
    NormalizerAgent.normalize_text "Uses Python daily" ≠ "" ∧
    ((NormalizerAgent.normalize_job 0
      { baseJob with required_skills := ["Go", "Go"],
                     description := "Uses Python daily" }).required_skills).Nodup ∧
    "Go" ∈ (NormalizerAgent.normalize_job 0
      { baseJob with required_skills := ["Go", "Go"],
                     description := "Uses Python daily" }).required_skills := by
  refine ⟨by decide, ?_, ?_⟩
  · exact (c7_amended_skills 0
      { baseJob with required_skills := ["Go", "Go"],
                     description := "Uses Python daily" }).1 (by decide)
  · exact (c7_amended_skills 0
      { baseJob with required_skills := ["Go", "Go"],
                     description := "Uses Python daily" }).2.2 "Go" (by decide)

/-- C5 counterexample: with `min_salary = 1` configured, a job whose
`salary_min` is absent is ACCEPTED — the source guards the salary check
with `and job.salary_min`, so the configured predicate
"salary_min ≥ configured minimum" is skipped rather than failed,
refuting "accepts only if all configured predicates pass". -/
theorem c5_counterexample :
    ResponderAgent.meets_criteria c5MinSalaryCrit baseJob = true ∧
    c5MinSalaryCrit.min_salary = some 1 ∧
    baseJob.salary_min = none := by
  decide

/-- C5 amended: the filter accepts a job exactly when every configured
predicate holds, where (as in the source) each predicate is: configured
skills intersect the job's skills; the job's `job_type` (resp.
`remote_type`) is present and in the allowed set; `salary_min ≥` the
configured minimum WHENEVER the job's `salary_min` is present and
non-zero (a job without salary passes); the job's location
case-insensitively contains one of the configured locations WHENEVER the
job's location is present and non-empty; an absent criterion key is
vacuously true.  In particular `required_skills=["Python"]` is rejected
under criteria `["Java"]` and accepted under `["Python"]`. -/
theorem c5_amended_criteria :
    (∀ (c : ResponseCriteria) (job : Job),
      ResponderAgent.meets_criteria c job = true ↔
        ((∀ req, c.required_skills = some req → ∃ s ∈ req, s ∈ job.required_skills) ∧
         (∀ ts, c.job_types = some ts → ∃ t, job.job_type = some t ∧ t ∈ ts) ∧
         (∀ rs, c.remote_types = some rs → ∃ r, job.remote_type = some r ∧ r ∈ rs) ∧
         (∀ m s, c.min_salary = some m → job.salary_min = some s → s ≠ 0 → m ≤ s) ∧
         (∀ ls l, c.locations = some ls → job.location = some l → l ≠ "" →
            ∃ loc ∈ ls, containsSubLower loc l = true))) ∧
    ResponderAgent.meets_criteria (c5SkillsCrit ["Java"]) c5PythonJob = false ∧
    ResponderAgent.meets_criteria (c5SkillsCrit ["Python"]) c5PythonJob = true := by
  refine ⟨?_, by decide, by decide⟩
  intro c job
  unfold ResponderAgent.meets_criteria
  simp only [Bool.and_eq_true, and_assoc]
  refine and_congr ?_ (and_congr ?_ (and_congr ?_ (and_congr ?_ ?_)))
  · cases c.required_skills <;>
      simp [List.any_eq_true, List.elem_iff]
  · cases c.job_types with
    | none => simp
    | some ts =>
      cases job.job_type <;> simp [List.elem_iff]
  · cases c.remote_types with
    | none => simp
    | some rs =>
      cases job.remote_type <;> simp [List.elem_iff]
  · cases c.min_salary with
    | none => simp
    | some m =>
      cases hs : job.salary_min with
      | none => simp
      | some s =>
        by_cases h0 : s = 0 <;> simp [h0]
  · cases c.locations with
    | none => simp
    | some ls =>
      cases hl : job.location with
      | none => simp
      | some l =>
        by_cases h0 : l = "" <;> simp [h0, List.any_eq_true]

/-- Witness for the amended C5, applying the characterization to the
accepting Python example: the configured skills really intersect. -/
theorem c5_amended_criteria_witness :
    ∃ s ∈ ["Python"], s ∈ c5PythonJob.required_skills := by
  have h := (c5_amended_criteria.1 (c5SkillsCrit ["Python"]) c5PythonJob).mp (by decide)
  exact h.1 ["Python"] rfl

/-- C1 counterexample: the second record of the batch raises during
writing (primary-key conflict), yet the call returns normally with that
record marked `error`, the first record IS stored (one row, external id
`"a"`, committed) and nothing propagates — the whole call does NOT roll
back, refuting the claim that any individual record's write error aborts
the batch. -/
theorem c1_counterexample :
    (StorageAgent.store_job 0 (StorageAgent.process 0 [] [c1JobA]).2 c1JobB =
      Except.error "UNIQUE constraint failed: jobs.id") ∧
    ((StorageAgent.process 0 [] [c1JobA, c1JobB]).1.map Job.status =
      [JobStatus.stored, JobStatus.error]) ∧
    ((StorageAgent.process 0 [] [c1JobA, c1JobB]).2.map JobRow.external_id =
      [some "a"]) :=
  ⟨rfl, rfl, rfl⟩

/-- C1 amended: all records of one `process` call share one transaction
committed once at the end, but an individual record's write error does
not roll the batch back — the inner per-record handler absorbs it, marks
that record `status = error`, and the loop continues (the output stays
one-to-one with the input and every record comes back `stored` or
`error`).  Only an exception escaping the per-record handling — in this
code a failing commit — aborts the call: it propagates to the caller and
the transaction is rolled back (no table state is returned). -/
theorem c1_amended_storage :
    (∀ (now : Nat) (db : StorageDB) (jobs : List Job),
      (StorageAgent.process now db jobs).1.length = jobs.length ∧
      ∀ j ∈ (StorageAgent.process now db jobs).1,
        j.status = JobStatus.stored ∨ j.status = JobStatus.error) ∧
    (∀ (commit : StorageDB → Except String StorageDB) (now : Nat)
        (db : StorageDB) (jobs : List Job),
      (∀ e, commit (StorageAgent.storeLoop now db jobs).2 = Except.error e →
        StorageAgent.processT commit now db jobs = Except.error e) ∧
      (∀ db2, commit (StorageAgent.storeLoop now db jobs).2 = Except.ok db2 →
        StorageAgent.processT commit now db jobs =
          Except.ok ((StorageAgent.storeLoop now db jobs).1, db2))) := by
  constructor
  · intro now db jobs
    exact ⟨StorageAgent.storeLoop_length now jobs db,
           fun j hj => StorageAgent.storeLoop_status now jobs db j hj⟩
  · intro commit now db jobs
    constructor
    · intro e he
      unfold StorageAgent.processT
      rw [he]
    · intro db2 h2
      unfold StorageAgent.processT
      rw [h2]

/-- Witness for the amended C1 on the counterexample batch: lengths and
statuses as stated, a failing commit propagates, a successful commit
returns the loop's table. -/
theorem c1_amended_storage_witness :
    (StorageAgent.process 0 [] [c1JobA, c1JobB]).1.length = 2 ∧
    StorageAgent.processT (fun _ => Except.error "disk full") 0 [] [c1JobA, c1JobB] =
      Except.error "disk full" ∧
    StorageAgent.processT Except.ok 0 [] [c1JobA, c1JobB] =
      Except.ok ((StorageAgent.storeLoop 0 [] [c1JobA, c1JobB]).1,
                 (StorageAgent.storeLoop 0 [] [c1JobA, c1JobB]).2) := by
  refine ⟨?_, ?_, ?_⟩
  · exact ((c1_amended_storage.1 0 [] [c1JobA, c1JobB]).1).trans (by decide)
  · exact (c1_amended_storage.2 (fun _ => Except.error "disk full") 0 [] [c1JobA, c1JobB]).1
      "disk full" rfl
  · exact (c1_amended_storage.2 Except.ok 0 [] [c1JobA, c1JobB]).2
      (StorageAgent.storeLoop 0 [] [c1JobA, c1JobB]).2 rfl

/-- C4: persisting a job and then persisting another job with the same
`external_id` but a different description leaves exactly one row for
that external id, and its description is the second write — the lookup
finds the first row and takes the UPDATE path instead of inserting. -/
theorem c4_upsert (j1 j2 : Job) (e : String) (now1 now2 : Nat)
    (h1 : j1.external_id = some e) (h2 : j2.external_id = some e)
    (hd : j1.description ≠ j2.description) :
    ((StorageAgent.process now2 (StorageAgent.process now1 [] [j1]).2 [j2]).2.map
        (fun r => (r.external_id, r.description))) = [(some e, j2.description)] := by
  obtain ⟨f1e, f1d, f1s⟩ := StorageAgent.fill_id_frame j1
  obtain ⟨f2e, f2d, f2s⟩ := StorageAgent.fill_id_frame j2
  simp [StorageAgent.process, StorageAgent.storeLoop, StorageAgent.store_job,
    StorageAgent.matches_external, StorageAgent.insert_row, StorageAgent.update_row,
    f1e, f2e, f2d, h1, h2]

/-- Witness for C4 at concrete jobs: one row, second description. -/
theorem c4_upsert_witness :
    ((StorageAgent.process 1 (StorageAgent.process 0 [] [c4Job1]).2 [c4Job2]).2.map
        (fun r => (r.external_id, r.description))) = [(some "e1", "second")] :=
  c4_upsert c4Job1 c4Job2 "e1" 0 1 rfl rfl (by decide)

/-- C9: when the fetch stage yields zero jobs — in particular for an
empty location list, since scraping no locations yields no jobs — the
pipeline short-circuits: it returns normally (the model is total) with
`execution_time_seconds` set, `urls_processed` equal to the input
length, `jobs_scraped = 0`, the remaining counts zero, no `responses`
key and no errors, and the store untouched. -/
theorem c9_empty_fetch_short_circuit :
    (∀ (fetch : String → List Job) (cfg : ResponderConfig) (now elapsed : Nat)
        (db : StorageDB) (urls : List String),
      ScraperAgent.process fetch urls = [] →
      JobScrapingOrchestrator.run_pipeline fetch cfg now elapsed db urls =
        ({ urls_processed := urls.length, jobs_scraped := 0, jobs_normalized := 0,
           jobs_stored := 0, responses_generated := 0, responses := none,
           execution_time_seconds := some elapsed, errors := [] }, db)) ∧
    (∀ fetch : String → List Job, ScraperAgent.process fetch [] = []) := by
  constructor
  · intro fetch cfg now elapsed db urls h
    unfold JobScrapingOrchestrator.run_pipeline
    rw [h]
    rfl
  · intro fetch
    rfl

/-- Witness for C9: a run over one URL whose fetch finds nothing, and
the empty-input run. -/
theorem c9_empty_fetch_short_circuit_witness :
    JobScrapingOrchestrator.run_pipeline (fun _ => []) emptyResponderConfig 0 7 [] ["u1"] =
      ({ urls_processed := 1, jobs_scraped := 0, jobs_normalized := 0,
         jobs_stored := 0, responses_generated := 0, responses := none,
         execution_time_seconds := some 7, errors := [] }, []) ∧
    JobScrapingOrchestrator.run_pipeline (fun _ => []) emptyResponderConfig 0 7 [] [] =
      ({ urls_processed := 0, jobs_scraped := 0, jobs_normalized := 0,
         jobs_stored := 0, responses_generated := 0, responses := none,
         execution_time_seconds := some 7, errors := [] }, []) := by
  constructor
  · exact c9_empty_fetch_short_circuit.1 (fun _ => []) emptyResponderConfig 0 7 [] ["u1"] rfl
  · exact c9_empty_fetch_short_circuit.1 (fun _ => []) emptyResponderConfig 0 7 [] []
      (c9_empty_fetch_short_circuit.2 (fun _ => []))

/-- C10: the respond stage returns an ineligible record (filter failed,
or no template available) completely untouched — in particular its
`status` is unchanged — and no stage ever assigns the `rejected` status:
a job produced by the scrape stage has status `new`, a normalized job
has status `normalized`, a persisted record comes back `stored` or
`error`, and the respond stage either leaves the status alone or sets
`responded`. -/
theorem c10_no_rejected_status :
    (∀ (cfg : ResponderConfig) (now : Nat) (job : Job),
      ResponderAgent.meets_criteria cfg.response_criteria job = false →
      ResponderAgent.process_job cfg now job =
        { job := job, response := none, should_respond := some false,
          reason := some "Does not meet criteria", auto_sent := none, error := none }) ∧
    (∀ (cfg : ResponderConfig) (now : Nat) (job : Job),
      cfg.templates = [] → (ResponderAgent.process_job cfg now job).job = job) ∧
    (∀ (cfg : ResponderConfig) (now : Nat) (job : Job),
      (ResponderAgent.process_job cfg now job).job.status = job.status ∨
      (ResponderAgent.process_job cfg now job).job.status = JobStatus.responded) ∧
    (∀ (now : Nat) (job : Job),
      (NormalizerAgent.normalize_job now job).status = JobStatus.normalized) ∧
    (∀ (now : Nat) (db : StorageDB) (jobs : List Job) (j : Job),
      j ∈ (StorageAgent.process now db jobs).1 →
      j.status = JobStatus.stored ∨ j.status = JobStatus.error) ∧
    (∀ (url : String) (idx now : Nat) (te ce de : Option String)
        (platform rawHtml : String) (job : Job),
      ScraperAgent.extract_job url idx now te ce de platform rawHtml = some job →
      job.status = JobStatus.new) := by
  refine ⟨?_, ?_, ?_, ?_, ?_, ?_⟩
  · intro cfg now job h
    simp [ResponderAgent.process_job, h]
  · intro cfg now job h
    cases hm : ResponderAgent.meets_criteria cfg.response_criteria job with
    | false => simp [ResponderAgent.process_job, hm]
    | true => simp [ResponderAgent.process_job, hm, ResponderAgent.select_template, h]
  · intro cfg now job
    simp only [ResponderAgent.process_job]
    split
    · left; rfl
    · split
      · left; rfl
      · split
        · right; rfl
        · right; rfl
  · intro now job
    rfl
  · intro now db jobs j hj
    exact StorageAgent.storeLoop_status now jobs db j hj
  · intro url idx now te ce de platform rawHtml job h
    cases te with
    | none => cases h
    | some t =>
      simp only [ScraperAgent.extract_job, Option.some.injEq] at h
      rw [← h]

/-- Witness for C10 at concrete inputs: an ineligible record comes back
untouched, a no-template record keeps its job, a persisted record is
stored or errored, a scraped record starts `new` — never `rejected`. -/
theorem c10_no_rejected_status_witness :
    ResponderAgent.process_job c10JavaCfg 0 c5PythonJob =
      { job := c5PythonJob, response := none, should_respond := some false,
        reason := some "Does not meet criteria", auto_sent := none, error := none } ∧
    (ResponderAgent.process_job emptyResponderConfig 0 baseJob).job = baseJob ∧
    (c10StoredJob.status = JobStatus.stored ∨ c10StoredJob.status = JobStatus.error) ∧
    c10ScrapedJob.status = JobStatus.new := by
  refine ⟨?_, ?_, ?_, ?_⟩
  · exact c10_no_rejected_status.1 c10JavaCfg 0 c5PythonJob (by decide)
  · exact c10_no_rejected_status.2.1 emptyResponderConfig 0 baseJob rfl
  · exact c10_no_rejected_status.2.2.2.2.1 0 [] [c4Job1] c10StoredJob (by decide)
  · exact c10_no_rejected_status.2.2.2.2.2 "u" 1 2 (some "T") none none "p" "h"
      c10ScrapedJob rfl
